import Mathlib

/-!
Verification of the conversation-orchestration core of the groupchatv3-ui
repository: the message tree builder (ThreadedConversationStream.tsx), the
ConversationOrchestrator class (ConversationOrchestrator.tsx), and the
session layer turn logic (pages/Index.tsx).  Every definition is a shallow
embedding translated from the TypeScript source; randomness (Math.random)
is modelled by oracle parameters, wall-clock time (Date.now) by explicit
Nat millisecond arguments, and the JavaScript timer table by an explicit
state record.
-/

namespace GroupChat

/-- Message kinds, from the `type` union of the `ThreadedMessage` interface
in ThreadedConversationStream.tsx (lines 7-24): `"message" | "thinking" |
"interruption" | "reaction" | "sub-response"`. -/
inductive MsgType where
  | message
  | thinking
  | interruption
  | reaction
  | subResponse
deriving DecidableEq, Repr

/-- The `ThreadedMessage` record of ThreadedConversationStream.tsx
(lines 7-24), restricted to the fields the orchestrator and tree builder
read or write.  `timestamp` is epoch milliseconds (`Date.now()`),
`isApproved` is the optional approval flag of sub-responses, `reasoning`
the optional reasoning string.  The `replies` field filled in by the tree
builder is represented by the children of an `MTree` node below, not
stored on the message itself. -/
structure ThreadedMessage where
  id : String
  parentId : Option String := none
  modelId : String
  content : String := ""
  type : MsgType := .message
  timestamp : Nat := 0
  isComplete : Bool := true
  isApproved : Option Bool := none
  reasoning : Option String := none
deriving DecidableEq, Repr

/-- JavaScript truthiness of `msg.parentId` as tested by
`if (msg.parentId)` in buildMessageTree (ThreadedConversationStream.tsx
line 384): an absent field and the empty string are both falsy. -/
def truthyParent (m : ThreadedMessage) : Option String :=
  match m.parentId with
  | none => none
  | some p => if p = "" then none else some p

/-- Whether `messageMap.get(p)` succeeds in the second pass of
buildMessageTree: some message of the input collection carries id `p`. -/
def resolvesIn (msgs : List ThreadedMessage) (p : String) : Bool :=
  msgs.any (fun m => m.id == p)

/-- A node of the rebuilt forest: the message together with its ordered
`replies` list. -/
inductive MTree where
  | node (msg : ThreadedMessage) (replies : List MTree)
deriving Repr

/-- Children construction of buildMessageTree
(ThreadedConversationStream.tsx lines 380-392): the replies of the node
for message `m` are, in input order, the messages whose truthy `parentId`
equals `m.id` (for such children the map lookup succeeds because `m`
itself is in the map).  The JavaScript builds these lists by mutating
shared clones; with distinct ids that mutation is equivalent to this
recursive construction.  `fuel` bounds the recursion depth; the caller
passes the collection size, which bounds the depth of any cycle-free
forest. -/
def buildNode (msgs : List ThreadedMessage) : Nat → ThreadedMessage → MTree
  | 0, m => .node m []
  | fuel + 1, m =>
      .node m ((msgs.filter (fun c => truthyParent c == some m.id)).map
        (buildNode msgs fuel))

/-- The tree builder of ThreadedConversationStream.tsx (lines 371-395):
first pass clones every message into a map keyed by id with empty
`replies`; second pass walks the input in order and either appends the
clone to its parent clone (when `msg.parentId` is truthy and resolves) or
pushes it onto `rootMessages` (when `msg.parentId` is falsy).  A message
whose truthy `parentId` does not resolve is appended nowhere: it is
silently dropped from the returned forest. -/
def buildMessageTree (msgs : List ThreadedMessage) : List MTree :=
  (msgs.filter (fun m => (truthyParent m).isNone)).map
    (buildNode msgs msgs.length)

/-- Ids occurring in a built node, mirroring the recursion of
`buildNode`. -/
def nodeIds (msgs : List ThreadedMessage) : Nat → ThreadedMessage → List String
  | 0, m => [m.id]
  | fuel + 1, m =>
      m.id :: ((msgs.filter (fun c => truthyParent c == some m.id)).map
        (nodeIds msgs fuel)).flatten

/-- Ids occurring anywhere in the forest returned by `buildMessageTree`. -/
def forestIds (msgs : List ThreadedMessage) : List String :=
  ((msgs.filter (fun m => (truthyParent m).isNone)).map
    (nodeIds msgs msgs.length)).flatten

/-- The dangling-parent scenario of the spec: a single message whose
`parentId` names an id that is absent from the collection. -/
def mX : ThreadedMessage := { id := "X", parentId := some "missing", modelId := "user" }

/-- Root of the three-message chain of the spec round-trip scenario. -/
def mA : ThreadedMessage := { id := "A", modelId := "user" }

/-- Middle of the three-message chain: child of `A`. -/
def mB : ThreadedMessage := { id := "B", parentId := some "A", modelId := "user" }

/-- Leaf of the three-message chain: child of `B`. -/
def mC : ThreadedMessage := { id := "C", parentId := some "B", modelId := "user" }

/-- The eight `setTimeout` sites of ConversationOrchestrator.tsx, one
constructor per site:
`thinkingStagger` (line 73, emits the thinking placeholder),
`thinkingComplete` (line 93, resolves the thinking phase),
`responseGap` (line 121, emits a primary response),
`subResponseTrigger` (line 132, invokes handleSubResponses),
`followUpPhase` (line 151, starts simulateFollowUpInteractions),
`subResponseEmit` (line 207, emits a sub-response via onSubResponseCreated),
`followUpEmit` (line 243, emits a follow-up via onMessageUpdate),
`followUpRoundWait` (line 254, the 5000 ms inter-round pause). -/
inductive TimerKind where
  | thinkingStagger
  | thinkingComplete
  | responseGap
  | subResponseTrigger
  | followUpPhase
  | subResponseEmit
  | followUpEmit
  | followUpRoundWait
deriving DecidableEq, Repr

/-- Whether the source stores the handle of this `setTimeout` in
`this.activeTimeouts`.  Only three of the eight sites do
(`this.activeTimeouts.add(...)` at lines 97, 100 and 146); the
sub-response and follow-up timers are scheduled without being
registered. -/
def addedToActiveTimeouts : TimerKind → Bool
  | .thinkingStagger => true
  | .thinkingComplete => true
  | .responseGap => true
  | .subResponseTrigger => false
  | .followUpPhase => false
  | .subResponseEmit => false
  | .followUpEmit => false
  | .followUpRoundWait => false

/-- A scheduled timer: its site and its runtime handle. -/
structure Timer where
  kind : TimerKind
  handle : Nat
deriving DecidableEq, Repr

/-- The orchestrator's timer state: the timers currently scheduled on the
event loop and the contents of the `activeTimeouts` set. -/
structure OrchTimerState where
  pending : List Timer
  activeTimeouts : List Nat
deriving DecidableEq, Repr

/-- A `setTimeout` call made by the orchestrator: the timer joins the
event loop's pending set, and its handle joins `activeTimeouts` exactly
when the site registers it. -/
def setTimeoutAt (s : OrchTimerState) (k : TimerKind) (h : Nat) : OrchTimerState :=
  { pending := s.pending ++ [⟨k, h⟩],
    activeTimeouts :=
      if addedToActiveTimeouts k then s.activeTimeouts ++ [h] else s.activeTimeouts }

/-- The `cleanup` method (ConversationOrchestrator.tsx lines 447-450):
`clearTimeout` every handle in `activeTimeouts` (removing those timers
from the event loop), then `activeTimeouts.clear()`.  Timers whose
handles were never registered stay pending. -/
def cleanup (s : OrchTimerState) : OrchTimerState :=
  { pending := s.pending.filter (fun t => !(s.activeTimeouts.contains t.handle)),
    activeTimeouts := [] }

/-- A turn that schedules one timer of every kind, with distinct
handles, starting from the empty state. -/
def turnWithAllTimerKinds : OrchTimerState :=
  (List.range 8).foldl
    (fun s i =>
      setTimeoutAt s
        ([TimerKind.thinkingStagger, .thinkingComplete, .responseGap,
          .subResponseTrigger, .followUpPhase, .subResponseEmit,
          .followUpEmit, .followUpRoundWait].getD i .thinkingStagger) i)
    ⟨[], []⟩

/-- Three-level trait scale of the `AIPersonality` interface
(ConversationOrchestrator.tsx lines 11-21). -/
inductive TraitLevel where
  | low
  | medium
  | high
deriving DecidableEq, Repr

/-- Thinking-speed scale of the `AIPersonality` interface. -/
inductive ThinkSpeed where
  | fast
  | medium
  | slow
deriving DecidableEq, Repr

/-- The `AIPersonality` interface of ConversationOrchestrator.tsx
(lines 11-21). -/
structure AIPersonality where
  id : String
  name : String
  thinkingSpeed : ThinkSpeed
  interruptiveness : TraitLevel
  agreeableness : TraitLevel
  creativity : TraitLevel
  responsePatterns : List String
  interruptionPatterns : List String
  subResponseTriggers : List String
deriving DecidableEq, Repr

/-- The `ConversationTiming` interface (lines 3-9); chances are the
probabilities compared against `Math.random()`, modelled as rationals. -/
structure ConversationTiming where
  thinkingDelay : Nat × Nat
  responseDelay : Nat × Nat
  interruptionChance : ℚ
  subResponseChance : ℚ
  reactionDelay : Nat × Nat
deriving DecidableEq, Repr

/-- Interruptiveness score used by determineResponseOrder
(lines 170-182): high = 3, medium = 2, low = 1. -/
def interruptScore : TraitLevel → Nat
  | .high => 3
  | .medium => 2
  | .low => 1

/-- The mode test of determineResponseOrder (line 169):
`mode === "debate" || mode === "devils-advocate"`. -/
def confrontational (mode : String) : Bool :=
  mode == "debate" || mode == "devils-advocate"

/-- One comparison of the sort comparator (lines 168-188).  In a
confrontational mode `a` stays before `b` when the comparator value
`bScore - aScore` is non-positive, i.e. when
`interruptScore b ≤ interruptScore a`; otherwise the comparator returns
`Math.random() - 0.5`, modelled by the comparison oracle `coin` indexed
by the running comparison count `k`. -/
def keepBefore (mode : String) (coin : Nat → Bool) (k : Nat)
    (a b : AIPersonality) : Bool :=
  if confrontational mode then
    interruptScore b.interruptiveness ≤ interruptScore a.interruptiveness
  else coin k

/-- Stable insertion of `a` into an already-sorted list, consuming one
oracle index per comparison; returns the list and the next unused
index.  `a` is placed before the first element it compares
not-after. -/
def insertModel (mode : String) (coin : Nat → Bool) (a : AIPersonality) :
    List AIPersonality → Nat → List AIPersonality × Nat
  | [], k => ([a], k)
  | b :: l, k =>
      if keepBefore mode coin k a b then (a :: b :: l, k + 1)
      else
        let p := insertModel mode coin a l (k + 1)
        (b :: p.1, p.2)

/-- Stable insertion sort threading the oracle index. -/
def sortModels (mode : String) (coin : Nat → Bool) :
    List AIPersonality → Nat → List AIPersonality × Nat
  | [], k => ([], k)
  | a :: l, k =>
      let p := sortModels mode coin l k
      insertModel mode coin a p.1 p.2

/-- determineResponseOrder (ConversationOrchestrator.tsx lines 163-189):
copies the input (`[...models]`) and sorts it with the mode-dependent
comparator.  `Array.prototype.sort` is stable (ES2019), and for the
consistent confrontational comparator the stable-sorted result is
unique, so a stable insertion sort is an exact embedding of that branch;
in the random branch the result depends on the comparison outcomes,
which the oracle `coin` supplies.  The input list is never mutated —
the source sorts a copy. -/
def determineResponseOrder (models : List AIPersonality) (mode : String)
    (coin : Nat → Bool) : List AIPersonality :=
  (sortModels mode coin models 0).1

/-- Oracle-free descending stable insertion used to state the
confrontational behaviour. -/
def insertDesc (a : AIPersonality) : List AIPersonality → List AIPersonality
  | [] => [a]
  | b :: l =>
      if interruptScore b.interruptiveness ≤ interruptScore a.interruptiveness
      then a :: b :: l
      else b :: insertDesc a l

/-- Oracle-free descending stable insertion sort. -/
def sortDescModels : List AIPersonality → List AIPersonality
  | [] => []
  | a :: l => insertDesc a (sortDescModels l)

/-- The `ConversationSettings` interface of EnhancedMissionControl.tsx
(lines 30-37). -/
structure ConversationSettings where
  allowInterruptions : Bool
  showThinking : Bool
  debateMode : Bool
  synapseVisualization : Bool
  responseDelay : Nat
  collaborationStyle : String
deriving DecidableEq, Repr

/-- Lower-casing as used by `toLowerCase()` in shouldCreateSubResponse,
applied per character (the trigger keywords and contents are ASCII). -/
def toLowerStr (s : String) : String :=
  ⟨s.data.map Char.toLower⟩

/-- JavaScript `hay.includes(needle)`: the needle occurs contiguously in
the hay (the empty needle always occurs). -/
def includesSub (hay needle : String) : Bool :=
  (List.range (hay.toList.length + 1)).any
    (fun i => needle.toList.isPrefixOf (hay.toList.drop i))

/-- shouldCreateSubResponse (ConversationOrchestrator.tsx lines 218-227):
some configured trigger keyword of the model occurs case-insensitively
in the parent message's content. -/
def shouldCreateSubResponse (model : AIPersonality)
    (parentMessage : ThreadedMessage) : Bool :=
  model.subResponseTriggers.any
    (fun trigger => includesSub (toLowerStr parentMessage.content) (toLowerStr trigger))

/-- The participants for which handleSubResponses
(ConversationOrchestrator.tsx lines 191-216) schedules a delayed
sub-response: every model other than the parent message's author whose
`Math.random()` draw beats `timing.subResponseChance` and whose trigger
keywords match the parent content.  The orchestrator receives no
settings object, so no `allowInterruptions` gate exists on this path. -/
def subRespondersOf (timing : ConversationTiming) (parentMessage : ThreadedMessage)
    (allModels : List AIPersonality) (draw : AIPersonality → ℚ) :
    List AIPersonality :=
  (allModels.filter (fun m => !(m.id == parentMessage.modelId))).filter
    (fun m => decide (draw m < timing.subResponseChance) &&
      shouldCreateSubResponse m parentMessage)

/-- getSubResponsesByPersonality (ConversationOrchestrator.tsx
lines 411-438): the per-personality sub-response bank, with the generic
fallback for unknown ids. -/
def getSubResponsesByPersonality (model : AIPersonality)
    (_parentContent : String) : List String :=
  if model.id == "gpt4" then
    ["From an analytical perspective, I'd add that...",
     "The data suggests we should also consider...",
     "Logically, this leads me to think..."]
  else if model.id == "claude" then
    ["I want to respectfully offer another viewpoint...",
     "This raises some important ethical questions about...",
     "I think we should also consider the broader implications..."]
  else if model.id == "gemini" then
    ["Plot twist: what if we completely flipped this idea?",
     "This sparks a wild idea - what if...",
     "I'm getting creative vibes from this - consider..."]
  else
    ["I'd like to add something to that..."]

/-- generateSubResponse (ConversationOrchestrator.tsx lines 320-352):
the emitted child message.  `pick` models the `Math.floor(Math.random()
* allResponses.length)` index draw, `now` the `Date.now()` call.  The
message carries `parentId` of the parent, kind `sub-response`, and
`isApproved: false`. -/
def generateSubResponse (model : AIPersonality) (parentMessage : ThreadedMessage)
    (pick : Nat) (now : Nat) : ThreadedMessage :=
  let subResponses :=
    ["Actually, I have a different perspective on this...",
     "Wait, that reminds me of something important...",
     "I'd like to add a quick point here...",
     "Building on that thought...",
     "Hold on, what if we considered..."]
  let allResponses :=
    subResponses ++ getSubResponsesByPersonality model parentMessage.content
  { id := "sub-" ++ model.id ++ "-" ++ toString now,
    parentId := some parentMessage.id,
    modelId := model.id,
    content := allResponses.getD (pick % allResponses.length) "",
    type := .subResponse,
    timestamp := now,
    isComplete := true,
    isApproved := some false }

/-- C7 as stated: a sub-response is scheduled only if (among the other
conditions) the `allowInterruptions` setting permits it.  The
orchestrator never consults any settings object, so this conjunct is
refutable. -/
def c7SubResponseGatedByInterruptions : Prop :=
  ∀ (settings : ConversationSettings) (timing : ConversationTiming)
    (parentMessage : ThreadedMessage) (allModels : List AIPersonality)
    (draw : AIPersonality → ℚ) (m : AIPersonality),
    m ∈ subRespondersOf timing parentMessage allModels draw →
    settings.allowInterruptions = true

/-- Timing fixture used in concrete scenarios: sub-response chance
one fifth. -/
def timingFx : ConversationTiming :=
  { thinkingDelay := (1, 3), responseDelay := (2, 5),
    interruptionChance := mkRat 3 10, subResponseChance := mkRat 1 5,
    reactionDelay := (1, 4) }

/-- Parent message fixture authored by claude whose content mentions
"data". -/
def parentFx : ThreadedMessage :=
  { id := "msg-claude-1000", modelId := "claude", content := "The data point stands" }

/-- Personality fixture for gpt4 with trigger keyword "data". -/
def gpt4Fx : AIPersonality :=
  { id := "gpt4", name := "GPT-4 Turbo", thinkingSpeed := .fast,
    interruptiveness := .high, agreeableness := .low, creativity := .medium,
    responsePatterns := [], interruptionPatterns := [],
    subResponseTriggers := ["data"] }

/-- Personality fixture for claude with low interruptiveness. -/
def claudeFx : AIPersonality :=
  { id := "claude", name := "Claude 3.5 Sonnet", thinkingSpeed := .slow,
    interruptiveness := .low, agreeableness := .high, creativity := .medium,
    responsePatterns := [], interruptionPatterns := [],
    subResponseTriggers := ["ethics"] }

/-- Personality fixture for gemini with medium interruptiveness. -/
def geminiFx : AIPersonality :=
  { id := "gemini", name := "Gemini 2.0 Flash", thinkingSpeed := .medium,
    interruptiveness := .medium, agreeableness := .medium, creativity := .high,
    responsePatterns := [], interruptionPatterns := [],
    subResponseTriggers := ["creative"] }

/-- One round of simulateFollowUpInteractions
(ConversationOrchestrator.tsx lines 229-256) paired with the loop: while
the continuation chance exceeds the 0.1 floor and fewer than 3 rounds
have run, each model rolls `Math.random() < continuationChance` (the
successful ones schedule a follow-up), the chance is multiplied by 0.6,
and the round counter advances.  Returns the per-round (chance,
successful models) list. -/
def simulateFollowUpRounds (models : List AIPersonality)
    (roll : Nat → AIPersonality → ℚ) (c : ℚ) (r : Nat) :
    List (ℚ × List AIPersonality) :=
  if h : c > 1/10 ∧ r < 3 then
    (c, models.filter (fun m => decide (roll r m < c))) ::
      simulateFollowUpRounds models roll (c * (6/10)) (r + 1)
  else []
termination_by 3 - r
decreasing_by omega

/-- simulateFollowUpInteractions entry point: the loop starts with
continuation chance 0.4 at round 0. -/
def simulateFollowUpInteractions (models : List AIPersonality)
    (roll : Nat → AIPersonality → ℚ) : List (ℚ × List AIPersonality) :=
  simulateFollowUpRounds models roll (4/10) 0

/-- Participant status of the `AIModel` interface in pages/Index.tsx
(lines 17-26). -/
inductive ModelStatus where
  | active
  | thinking
  | inactive
deriving DecidableEq, Repr

/-- The `AIModel` interface of pages/Index.tsx (lines 17-26). -/
structure AIModel where
  id : String
  name : String
  shortName : String
  avatar : String
  color : String
  status : ModelStatus
  personality : String
  specialization : String
deriving DecidableEq, Repr

/-- The `ConversationMessage` record consumed by pages/Index.tsx.  Its
declaring file (ConversationStream.tsx) is not part of the sources; the
field set is reconstructed from the construction sites in Index.tsx
(lines 127-136, 171-185, 296-309 and 373-383) and matches the spec's
data model. -/
structure ConversationMessage where
  id : String
  modelId : String
  modelName : String
  modelColor : String
  content : String
  type : MsgType
  timestamp : Nat
  isComplete : Bool
  reasoning : Option String := none
  referencesTo : Option (List String) := none
  confidence : Option ℚ := none
deriving DecidableEq, Repr

/-- generateMessageId (Index.tsx line 108):
`msg-${++messageIdCounter.current}` — returns the id string and the new
counter value. -/
def generateMessageId (counter : Nat) : String × Nat :=
  ("msg-" ++ toString (counter + 1), counter + 1)

/-- The random and environmental inputs of one turn of
initiateAIConversation: ids handed out by `generateMessageId` at each
emission site, reasoning/content template picks, `Date.now()` readings,
the `Math.random() > 0.4` participation draws of later rounds, the
`Math.random() > 0.7` interruption draws, and the interrupting-model
search result. -/
structure TurnOracles where
  thinkId : Nat → String
  thinkReasoning : Nat → String
  thinkTime : Nat → Nat
  keeps : Nat → String → Bool
  respId : Nat → String → String
  respContent : Nat → String → String
  respConf : Nat → String → ℚ
  respTime : Nat → String → Nat
  interruptDraw : Nat → String → Bool
  interrupterOf : Nat → String → Option AIModel
  intrId : Nat → String → String
  intrContent : Nat → String → String
  intrTime : Nat → String → Nat

/-- The thinking phase of initiateAIConversation (Index.tsx
lines 167-189): when `settings.showThinking` is on, one `thinking`
placeholder per active model (staggered by `index * 500` ms, which does
not change what is emitted), with empty content and `isComplete: false`;
when it is off, nothing. -/
def thinkingPhaseMessages (settings : ConversationSettings)
    (activeModels : List AIModel) (o : TurnOracles) : List ConversationMessage :=
  if settings.showThinking then
    activeModels.enum.map (fun p =>
      { id := o.thinkId p.1, modelId := p.2.id, modelName := p.2.name,
        modelColor := p.2.color, content := "", type := .thinking,
        timestamp := o.thinkTime p.1, isComplete := false,
        reasoning := some (o.thinkReasoning p.1) })
  else []

/-- The models that respond in a given round (Index.tsx lines 193-196):
round 0 takes every active model, later rounds keep each active model
only when its `Math.random() > 0.4` draw succeeds. -/
def respondingModels (activeModels : List AIModel)
    (keeps : Nat → String → Bool) (round : Nat) : List AIModel :=
  if round = 0 then activeModels else activeModels.filter (fun m => keeps round m.id)

/-- generateAIResponse (Index.tsx lines 272-310): a completed `message`
from the model, citing via `referencesTo` the other-model `message`
entries among the last five history entries.  The response text is the
random pick from generateResponseByPersonality's bank, supplied here as
`contentPick`. -/
def generateAIResponse (model : AIModel) (history : List ConversationMessage)
    (newId : String) (contentPick : String) (conf : ℚ) (now : Nat) :
    ConversationMessage :=
  let recentMessages := history.drop (history.length - 5)
  let referencedMessages :=
    (recentMessages.filter (fun msg =>
      !(msg.modelId == model.id) && (msg.type == MsgType.message))).map (·.id)
  { id := newId, modelId := model.id, modelName := model.name,
    modelColor := model.color, content := contentPick, type := .message,
    timestamp := now, isComplete := true,
    referencesTo :=
      if referencedMessages.length > 0 then some referencedMessages else none,
    confidence := some conf,
    reasoning := some (model.specialization ++ ": " ++ model.personality) }

/-- handleInterruption (Index.tsx lines 366-386): an `interruption`
message from the interrupting model citing the target message. -/
def interruptionMessage (interruptingModel : AIModel) (targetMessageId : String)
    (newId : String) (contentPick : String) (now : Nat) : ConversationMessage :=
  { id := newId, modelId := interruptingModel.id,
    modelName := interruptingModel.name, modelColor := interruptingModel.color,
    content := contentPick, type := .interruption, timestamp := now,
    isComplete := true, referencesTo := some [targetMessageId] }

/-- The messages emitted by one response round of initiateAIConversation
(Index.tsx lines 198-239): each responding model emits its response and,
when `settings.allowInterruptions` holds, its `Math.random() > 0.7` draw
succeeds, the round is below 2 and an interrupting model is found, a
follow-on interruption citing that response. -/
def roundEmissions (settings : ConversationSettings)
    (activeModels : List AIModel) (history : List ConversationMessage)
    (o : TurnOracles) (round : Nat) : List ConversationMessage :=
  (respondingModels activeModels o.keeps round).flatMap (fun m =>
    let response := generateAIResponse m history (o.respId round m.id)
      (o.respContent round m.id) (o.respConf round m.id) (o.respTime round m.id)
    response ::
      (if settings.allowInterruptions && o.interruptDraw round m.id &&
          decide (round < 2) then
        match o.interrupterOf round m.id with
        | some im =>
            [interruptionMessage im response.id (o.intrId round m.id)
              (o.intrContent round m.id) (o.intrTime round m.id)]
        | none => []
      else []))

/-- All messages emitted by one call of initiateAIConversation
(Index.tsx lines 160-241): the thinking phase followed by the three
response rounds. -/
def initiateAIConversationEmissions (settings : ConversationSettings)
    (activeModels : List AIModel) (history : List ConversationMessage)
    (o : TurnOracles) : List ConversationMessage :=
  thinkingPhaseMessages settings activeModels o ++
    (List.range 3).flatMap (roundEmissions settings activeModels history o)

/-- Decimal digit list of `n`, most significant first, as produced by
`Nat.toDigitsCore` with sufficient fuel. -/
def msdigits (n : Nat) : List Char :=
  if n < 10 then [Nat.digitChar n]
  else msdigits (n / 10) ++ [Nat.digitChar (n % 10)]
termination_by n
decreasing_by exact Nat.div_lt_self (by omega) (by omega)

/-- Second parent fixture: a gemini message also mentioning "data". -/
def parent2Fx : ThreadedMessage :=
  { id := "msg-gemini-2000", modelId := "gemini", content := "more data here" }

/-- Every id occurring in a built node is either the id of the node's own
message, or the id of an input message whose truthy parent reference
resolves inside the input collection. -/
theorem nodeIds_spec (msgs : List ThreadedMessage) :
    ∀ (fuel : Nat) (m : ThreadedMessage), m ∈ msgs → ∀ i : String,
      i ∈ nodeIds msgs fuel m →
      i = m.id ∨ ∃ c ∈ msgs, c.id = i ∧
        ∃ q, truthyParent c = some q ∧ resolvesIn msgs q = true := by
  intro fuel
  induction fuel with
  | zero =>
      intro m _ i hi
      simp [nodeIds] at hi
      exact Or.inl hi
  | succ fuel ih =>
      intro m hm i hi
      simp only [nodeIds, List.mem_cons, List.mem_flatten, List.mem_map] at hi
      rcases hi with hi | ⟨l, ⟨c, hc, hl⟩, hil⟩
      · exact Or.inl hi
      · subst hl
        rcases List.mem_filter.mp hc with ⟨hcmem, hcpar⟩
        have hpar : truthyParent c = some m.id := by
          simpa using hcpar
        have hres : resolvesIn msgs m.id = true := by
          simp only [resolvesIn, List.any_eq_true]
          exact ⟨m, hm, by simp⟩
        rcases ih c hcmem i hil with hid | hex
        · exact Or.inr ⟨c, hcmem, hid.symm, m.id, hpar, hres⟩
        · exact Or.inr hex

/-- C1 counterexample: for the input `[{id:X, parentId:"missing"}]` the
built tree is empty — it does not have one root `X` as the claim states.
The second pass of buildMessageTree appends a message with a truthy but
unresolvable `parentId` neither to a parent nor to `rootMessages`, so the
message is dropped. -/
theorem c1_counterexample :
    buildMessageTree [mX] = [] ∧ (buildMessageTree [mX]).length ≠ 1 := by
  constructor
  · rfl
  · decide

/-- C1 (amended): a message whose `parentId` is truthy but does not
resolve to any message in the input collection is dropped from the output
forest of `buildMessageTree` — it appears neither as a root nor as a
child (assuming the collection's ids are pairwise distinct, which holds
for every emitted session per the id-uniqueness discussion of C6); in
particular the single-message input `[{id:X, parentId:"missing"}]` yields
the empty forest. -/
theorem c1_dangling_is_dropped :
    (∀ (msgs : List ThreadedMessage) (m : ThreadedMessage) (p : String),
      (∀ a ∈ msgs, ∀ b ∈ msgs, a.id = b.id → a = b) →
      m ∈ msgs → truthyParent m = some p → resolvesIn msgs p = false →
      m.id ∉ forestIds msgs) ∧
    buildMessageTree [mX] = [] := by
  refine ⟨?_, rfl⟩
  intro msgs m p hinj hm hpar hres hmem
  simp only [forestIds, List.mem_flatten, List.mem_map] at hmem
  rcases hmem with ⟨l, ⟨r, hr, hl⟩, hil⟩
  subst hl
  rcases List.mem_filter.mp hr with ⟨hrmem, hroot⟩
  have hrootPar : truthyParent r = none := by
    cases hpar' : truthyParent r with
    | none => rfl
    | some q => rw [hpar'] at hroot; simp at hroot
  rcases nodeIds_spec msgs msgs.length r hrmem m.id hil with hid | ⟨c, hcmem, hcid, q, hq, hqres⟩
  · have : r = m := hinj r hrmem m hm hid.symm
    rw [this, hpar] at hrootPar
    exact Option.noConfusion hrootPar
  · have : c = m := hinj c hcmem m hm hcid
    rw [this, hpar] at hq
    have hpq : p = q := by injection hq
    rw [← hpq] at hqres
    rw [hqres] at hres
    exact Bool.noConfusion hres

/-- C1 witness: the amended statement applied to the concrete dangling
scenario — `X` occurs nowhere in the forest built from `[mX]`. -/
theorem c1_dangling_is_dropped_witness : "X" ∉ forestIds [mX] := by
  have h := c1_dangling_is_dropped.1 [mX] mX "missing"
    (by decide) (by simp) (by decide) (by decide)
  simpa [mX] using h

/-- C3: for every permutation of the input order of the chain
`[{id:A}, {id:B, parentId:A}, {id:C, parentId:B}]`, buildMessageTree
returns exactly one root `A`, whose only child is `B`, whose only child
is `C` — the result is invariant under reordering of the input. -/
theorem c3_chain_order_invariant :
    ∀ l : List ThreadedMessage, l.Perm [mA, mB, mC] →
      buildMessageTree l = [.node mA [.node mB [.node mC []]]] := by
  intro l h
  have h3 : l.length = 3 := h.length_eq
  rcases l with _ | ⟨x, _ | ⟨y, _ | ⟨z, _ | ⟨w, t⟩⟩⟩⟩
  · simp at h3
  · simp at h3
  · simp at h3
  · have hx : x ∈ [mA, mB, mC] := h.mem_iff.mp (by simp)
    have hy : y ∈ [mA, mB, mC] := h.mem_iff.mp (by simp)
    have hz : z ∈ [mA, mB, mC] := h.mem_iff.mp (by simp)
    simp only [List.mem_cons, List.not_mem_nil, or_false] at hx hy hz
    rcases hx with rfl | rfl | rfl <;> rcases hy with rfl | rfl | rfl <;>
      rcases hz with rfl | rfl | rfl <;>
      first
        | rfl
        | exact absurd h (by decide)
  · simp at h3

/-- C3 witness: the round-trip theorem applied to the identity
permutation of the chain. -/
theorem c3_chain_order_invariant_witness :
    buildMessageTree [mA, mB, mC] = [.node mA [.node mB [.node mC []]]] :=
  c3_chain_order_invariant [mA, mB, mC] (List.Perm.refl _)

/-- C2 (code bug): running `cleanup` after a turn that scheduled one
timer of every kind leaves the five unregistered timers — the
sub-response trigger and emit timers, the follow-up phase, emit and
round-wait timers — still pending, so their `onMessage`/`onSubResponse`
callbacks fire after cancellation, contrary to the cancel-all contract.
Only the thinking-stagger, thinking-complete and response-gap timers are
cancelled. -/
theorem c2_cleanup_misses_unregistered_timers :
    (cleanup turnWithAllTimerKinds).pending.map Timer.kind =
      [TimerKind.subResponseTrigger, .followUpPhase, .subResponseEmit,
       .followUpEmit, .followUpRoundWait] ∧
    (cleanup turnWithAllTimerKinds).pending ≠ [] := by
  constructor
  · rfl
  · decide

/-- C9: `cleanup` is idempotent — a second call starts from an empty
`activeTimeouts` set, so it clears no further timers and leaves the
state unchanged. -/
theorem c9_cleanup_idempotent :
    ∀ s : OrchTimerState, cleanup (cleanup s) = cleanup s := by
  intro s
  simp [cleanup]

/-- In a confrontational mode, `insertModel` ignores the oracle and the
index: it equals the oracle-free insertion. -/
theorem insertModel_confrontational (mode : String) (coin : Nat → Bool)
    (hmode : confrontational mode = true) (a : AIPersonality) :
    ∀ (l : List AIPersonality) (k : Nat),
      (insertModel mode coin a l k).1 = insertDesc a l := by
  intro l
  induction l with
  | nil => intro k; rfl
  | cons b l ih =>
      intro k
      simp only [insertModel, insertDesc, keepBefore, hmode, if_true]
      by_cases hle :
          interruptScore b.interruptiveness ≤ interruptScore a.interruptiveness
      · simp [hle]
      · simp [hle, ih (k + 1)]

/-- In a confrontational mode, `sortModels` ignores the oracle and the
index: it equals the oracle-free insertion sort. -/
theorem sortModels_confrontational (mode : String) (coin : Nat → Bool)
    (hmode : confrontational mode = true) :
    ∀ (l : List AIPersonality) (k : Nat),
      (sortModels mode coin l k).1 = sortDescModels l := by
  intro l
  induction l with
  | nil => intro k; rfl
  | cons a l ih =>
      intro k
      simp only [sortModels, sortDescModels]
      rw [insertModel_confrontational mode coin hmode, ih k]

/-- Inserting preserves membership up to permutation. -/
theorem insertModel_perm (mode : String) (coin : Nat → Bool)
    (a : AIPersonality) :
    ∀ (l : List AIPersonality) (k : Nat),
      ((insertModel mode coin a l k).1).Perm (a :: l) := by
  intro l
  induction l with
  | nil => intro k; exact List.Perm.refl _
  | cons b l ih =>
      intro k
      simp only [insertModel]
      by_cases hk : keepBefore mode coin k a b
      · simp [hk]
      · simp only [hk, if_false]
        exact ((ih (k + 1)).cons b).trans (List.Perm.swap a b l)

/-- Sorting returns a permutation of the input. -/
theorem sortModels_perm (mode : String) (coin : Nat → Bool) :
    ∀ (l : List AIPersonality) (k : Nat),
      ((sortModels mode coin l k).1).Perm l := by
  intro l
  induction l with
  | nil => intro k; exact List.Perm.refl _
  | cons a l ih =>
      intro k
      simp only [sortModels]
      exact (insertModel_perm mode coin a _ _).trans ((ih k).cons a)

/-- Insertion into a non-increasing list keeps it non-increasing. -/
theorem insertDesc_pairwise (a : AIPersonality)
    (l : List AIPersonality)
    (hl : l.Pairwise (fun x y =>
      interruptScore y.interruptiveness ≤ interruptScore x.interruptiveness)) :
    (insertDesc a l).Pairwise (fun x y =>
      interruptScore y.interruptiveness ≤ interruptScore x.interruptiveness) := by
  induction l with
  | nil => simp [insertDesc]
  | cons b l ih =>
      rcases List.pairwise_cons.mp hl with ⟨hb, hl'⟩
      simp only [insertDesc]
      by_cases hle :
          interruptScore b.interruptiveness ≤ interruptScore a.interruptiveness
      · simp only [hle, if_true]
        refine List.pairwise_cons.mpr ⟨?_, hl⟩
        intro x hx
        rcases List.mem_cons.mp hx with rfl | hx
        · exact hle
        · exact le_trans (hb x hx) hle
      · simp only [hle, if_false]
        refine List.pairwise_cons.mpr ⟨?_, ih hl'⟩
        intro x hx
        have hperm : (insertDesc a l).Perm (a :: l) := by
          have := insertModel_perm "debate" (fun _ => true) a l 0
          rwa [insertModel_confrontational "debate" (fun _ => true) rfl a l 0]
            at this
        rcases List.mem_cons.mp (hperm.mem_iff.mp hx) with rfl | hx
        · exact le_of_not_le hle
        · exact hb x hx

/-- The oracle-free sort produces a non-increasing score sequence. -/
theorem sortDescModels_pairwise :
    ∀ l : List AIPersonality,
      (sortDescModels l).Pairwise (fun x y =>
        interruptScore y.interruptiveness ≤ interruptScore x.interruptiveness) := by
  intro l
  induction l with
  | nil => simp [sortDescModels]
  | cons a l ih => exact insertDesc_pairwise a _ ih

/-- C5: in a confrontational mode (`"debate"` or `"devils-advocate"`),
determineResponseOrder sorts the participants into non-increasing order
of interruptiveness score (high = 3, medium = 2, low = 1), and the
result does not depend on the random source: the same input list always
yields the same output order. -/
theorem c5_confrontational_order (models : List AIPersonality)
    (mode : String) (coin coin' : Nat → Bool)
    (hmode : confrontational mode = true) :
    determineResponseOrder models mode coin =
      determineResponseOrder models mode coin' ∧
    (determineResponseOrder models mode coin).Pairwise (fun x y =>
      interruptScore y.interruptiveness ≤ interruptScore x.interruptiveness) := by
  constructor
  · rw [determineResponseOrder, determineResponseOrder,
      sortModels_confrontational mode coin hmode,
      sortModels_confrontational mode coin' hmode]
  · rw [determineResponseOrder, sortModels_confrontational mode coin hmode]
    exact sortDescModels_pairwise models

/-- C10: for every mode — confrontational or randomly shuffled — the
output of determineResponseOrder is a permutation of its input: no
participant is dropped or duplicated.  (The source sorts the copy
`[...models]`, leaving the input array unchanged; in this functional
embedding immutability of the input is intrinsic.) -/
theorem c10_order_is_permutation (models : List AIPersonality)
    (mode : String) (coin : Nat → Bool) :
    (determineResponseOrder models mode coin).Perm models :=
  sortModels_perm mode coin models 0

/-- C5 witness: on the concrete panel (claude low, gpt4 high, gemini
medium) in debate mode, the order is the same under two different random
sources and is non-increasing in interruptiveness score. -/
theorem c5_confrontational_order_witness :
    confrontational "debate" = true ∧
    (determineResponseOrder [claudeFx, gpt4Fx, geminiFx] "debate" (fun _ => true) =
      determineResponseOrder [claudeFx, gpt4Fx, geminiFx] "debate" (fun _ => false) ∧
    (determineResponseOrder [claudeFx, gpt4Fx, geminiFx] "debate"
        (fun _ => true)).Pairwise (fun x y =>
      interruptScore y.interruptiveness ≤ interruptScore x.interruptiveness)) :=
  ⟨rfl, c5_confrontational_order [claudeFx, gpt4Fx, geminiFx] "debate"
    (fun _ => true) (fun _ => false) rfl⟩

/-- C7 counterexample: with `allowInterruptions` switched off, the
orchestrator still schedules gpt4's sub-response to claude's message
(the draw 0 beats the chance 1/5 and the trigger "data" matches), so the
claimed `allowInterruptions` gate does not exist. -/
theorem c7_counterexample : ¬ c7SubResponseGatedByInterruptions := by
  intro h
  have := h
    { allowInterruptions := false, showThinking := true, debateMode := false,
      synapseVisualization := true, responseDelay := 2,
      collaborationStyle := "free-form" }
    timingFx parentFx [gpt4Fx] (fun _ => 0) gpt4Fx (by decide)
  exact Bool.noConfusion this

/-- C7 (amended): a sub-response is scheduled for a participant exactly
when that participant is not the author of the parent message, the
`subResponseChance` draw succeeds, and one of the participant's trigger
keywords occurs case-insensitively in the parent content — the
`allowInterruptions` setting is not consulted, since the orchestrator
receives no settings.  Every sub-response emitted for such a participant
carries `parentId` equal to the parent message's id and starts pending:
kind `sub-response` with `isApproved` false. -/
theorem c7_subresponse_conditions (timing : ConversationTiming)
    (parentMessage : ThreadedMessage) (allModels : List AIPersonality)
    (draw : AIPersonality → ℚ) (m : AIPersonality) :
    (m ∈ subRespondersOf timing parentMessage allModels draw ↔
      m ∈ allModels ∧ m.id ≠ parentMessage.modelId ∧
      draw m < timing.subResponseChance ∧
      shouldCreateSubResponse m parentMessage = true) ∧
    ∀ pick now : Nat,
      (generateSubResponse m parentMessage pick now).parentId =
        some parentMessage.id ∧
      (generateSubResponse m parentMessage pick now).type = .subResponse ∧
      (generateSubResponse m parentMessage pick now).isApproved = some false := by
  constructor
  · simp only [subRespondersOf, List.mem_filter, Bool.and_eq_true,
      decide_eq_true_eq, Bool.not_eq_true', beq_eq_false_iff_ne, ne_eq]
    tauto
  · intro pick now
    exact ⟨rfl, rfl, rfl⟩

/-- C7 witness: in the concrete scenario, gpt4 is selected (it is not
the author, its draw 0 beats 1/5, and "data" matches), and its emitted
sub-response points at the parent and is a pending sub-response. -/
theorem c7_subresponse_conditions_witness :
    gpt4Fx ∈ subRespondersOf timingFx parentFx [gpt4Fx] (fun _ => 0) ∧
    (generateSubResponse gpt4Fx parentFx 2 5000).parentId =
      some "msg-claude-1000" ∧
    (generateSubResponse gpt4Fx parentFx 2 5000).type = .subResponse ∧
    (generateSubResponse gpt4Fx parentFx 2 5000).isApproved = some false := by
  refine ⟨?_, ?_⟩
  · exact (c7_subresponse_conditions timingFx parentFx [gpt4Fx]
      (fun _ => 0) gpt4Fx).1.mpr ⟨by decide, by decide, by decide, by decide⟩
  · exact (c7_subresponse_conditions timingFx parentFx [gpt4Fx]
      (fun _ => 0) gpt4Fx).2 2 5000

/-- The follow-up loop runs at most `3 - r` further rounds from round
`r`. -/
theorem simulateFollowUpRounds_length (models : List AIPersonality)
    (roll : Nat → AIPersonality → ℚ) :
    ∀ (fuel : Nat) (c : ℚ) (r : Nat), 3 - r ≤ fuel →
      (simulateFollowUpRounds models roll c r).length ≤ 3 - r := by
  intro fuel
  induction fuel with
  | zero =>
      intro c r h
      rw [simulateFollowUpRounds, dif_neg]
      · simp
      · rintro ⟨-, hr⟩
        omega
  | succ fuel ih =>
      intro c r h
      rw [simulateFollowUpRounds]
      by_cases hc : c > 1/10 ∧ r < 3
      · rw [dif_pos hc]
        have := ih (c * (6/10)) (r + 1) (by omega)
        simp only [List.length_cons]
        omega
      · rw [dif_neg hc]
        simp

/-- C8: the follow-up phase always terminates after at most 3 rounds;
the continuation chance starts at 0.4 and is multiplied by 0.6 after
each round, so the rounds that actually run carry chances 0.4, 0.24 and
0.144, after which the loop guard (chance above the 0.1 floor and fewer
than 3 rounds) fails. -/
theorem c8_followup_terminates (models : List AIPersonality)
    (roll : Nat → AIPersonality → ℚ) :
    (∀ (c : ℚ) (r : Nat),
      (simulateFollowUpRounds models roll c r).length ≤ 3 - r) ∧
    (simulateFollowUpInteractions models roll).map Prod.fst =
      [4/10, 24/100, 144/1000] := by
  constructor
  · intro c r
    exact simulateFollowUpRounds_length models roll (3 - r) c r le_rfl
  · rw [simulateFollowUpInteractions,
      simulateFollowUpRounds, dif_pos (by norm_num),
      simulateFollowUpRounds, dif_pos (by norm_num),
      simulateFollowUpRounds, dif_pos (by norm_num),
      simulateFollowUpRounds, dif_neg (by norm_num)]
    norm_num

/-- No message of a response round is a thinking placeholder: responses
are `message`s and interruptions are `interruption`s. -/
theorem roundEmissions_no_thinking (settings : ConversationSettings)
    (activeModels : List AIModel) (history : List ConversationMessage)
    (o : TurnOracles) (round : Nat) :
    ∀ msg ∈ roundEmissions settings activeModels history o round,
      msg.type ≠ MsgType.thinking := by
  intro msg hmsg
  simp only [roundEmissions, List.mem_flatMap] at hmsg
  rcases hmsg with ⟨m, -, hmem⟩
  rcases List.mem_cons.mp hmem with rfl | htail
  · intro h
    exact MsgType.noConfusion h
  · rcases Bool.eq_false_or_eq_true
        (settings.allowInterruptions && o.interruptDraw round m.id &&
          decide (round < 2)) with hb | hb
    · rw [hb] at htail
      cases him : o.interrupterOf round m.id with
      | none => rw [him] at htail; simp at htail
      | some im =>
          rw [him] at htail
          simp at htail
          subst htail
          intro h
          exact MsgType.noConfusion h
    · rw [hb] at htail
      simp at htail

/-- C4: the number of `thinking` messages emitted by a turn of
initiateAIConversation equals the number of active participants at turn
start when `showThinking` is enabled, and zero when it is disabled. -/
theorem c4_thinking_count (settings : ConversationSettings)
    (activeModels : List AIModel) (history : List ConversationMessage)
    (o : TurnOracles) :
    (initiateAIConversationEmissions settings activeModels history o).countP
        (fun msg => msg.type == MsgType.thinking) =
      if settings.showThinking then activeModels.length else 0 := by
  rw [initiateAIConversationEmissions, List.countP_append]
  have hrounds :
      ((List.range 3).flatMap
        (roundEmissions settings activeModels history o)).countP
        (fun msg => msg.type == MsgType.thinking) = 0 := by
    rw [List.countP_eq_zero]
    intro msg hmsg
    simp only [List.mem_flatMap] at hmsg
    rcases hmsg with ⟨round, -, hmem⟩
    have := roundEmissions_no_thinking settings activeModels history o round msg hmem
    simpa using this
  rw [hrounds, Nat.add_zero]
  rw [thinkingPhaseMessages]
  by_cases hshow : settings.showThinking
  · rw [if_pos hshow, if_pos hshow, List.countP_map]
    have : ∀ p ∈ activeModels.enum, ((fun msg => msg.type == MsgType.thinking) ∘
        (fun p : Nat × AIModel =>
          ({ id := o.thinkId p.1, modelId := p.2.id, modelName := p.2.name,
             modelColor := p.2.color, content := "", type := .thinking,
             timestamp := o.thinkTime p.1, isComplete := false,
             reasoning := some (o.thinkReasoning p.1) } : ConversationMessage))) p = true := by
      intro p _
      rfl
    rw [List.countP_eq_length.mpr this, List.enum_length]
  · rw [if_neg hshow, if_neg hshow]
    rfl

/-- Numeric value of a decimal digit character produced by
`Nat.digitChar`. -/
theorem digitChar_toNat_sub (d : Nat) (hd : d < 10) :
    (Nat.digitChar d).toNat - 48 = d := by
  interval_cases d <;> rfl

/-- Folding the digit-value accumulator over `msdigits n` starting from
`a` yields `a * 10 ^ (number of digits) + n`. -/
theorem foldl_msdigits (n : Nat) :
    ∀ a : Nat,
      (msdigits n).foldl (fun a c => 10 * a + (c.toNat - 48)) a =
        a * 10 ^ (msdigits n).length + n := by
  induction n using Nat.strong_induction_on with
  | _ n ih =>
      intro a
      rw [msdigits]
      by_cases h : n < 10
      · rw [if_pos h]
        simp only [List.foldl_cons, List.foldl_nil, List.length_singleton]
        rw [digitChar_toNat_sub n h]
        ring
      · rw [if_neg h]
        rw [List.foldl_append]
        rw [ih (n / 10) (Nat.div_lt_self (by omega) (by omega)) a]
        simp only [List.foldl_cons, List.foldl_nil, List.length_append,
          List.length_singleton]
        rw [digitChar_toNat_sub (n % 10) (Nat.mod_lt _ (by omega))]
        rw [pow_succ, ← Nat.mul_assoc]
        have hdm : 10 * (n / 10) + n % 10 = n := Nat.div_add_mod n 10
        generalize a * 10 ^ (msdigits (n / 10)).length = x
        omega

/-- `msdigits` is injective: the digit string determines the number. -/
theorem msdigits_injective (n m : Nat) (h : msdigits n = msdigits m) :
    n = m := by
  have hn := foldl_msdigits n 0
  have hm := foldl_msdigits m 0
  rw [h] at hn
  rw [hn] at hm
  simpa using hm

/-- One-step unfolding of `Nat.toDigitsCore` at positive fuel. -/
theorem toDigitsCore_succ (b fuel n : Nat) (acc : List Char) :
    Nat.toDigitsCore b (fuel + 1) n acc =
      if n / b = 0 then Nat.digitChar (n % b) :: acc
      else Nat.toDigitsCore b fuel (n / b) (Nat.digitChar (n % b) :: acc) :=
  rfl

/-- With fuel exceeding the digit count, `Nat.toDigitsCore` in base 10
prepends exactly `msdigits n` to its accumulator. -/
theorem toDigitsCore_eq_msdigits :
    ∀ (f n : Nat) (acc : List Char), n < 10 ^ (f + 1) →
      Nat.toDigitsCore 10 (f + 1) n acc = msdigits n ++ acc := by
  intro f
  induction f with
  | zero =>
      intro n acc hn
      have h10 : n < 10 := by simpa using hn
      have hdiv : n / 10 = 0 := Nat.div_eq_of_lt h10
      rw [toDigitsCore_succ, if_pos hdiv, msdigits, if_pos h10,
        Nat.mod_eq_of_lt h10]
      rfl
  | succ f ih =>
      intro n acc hn
      by_cases hdiv : n / 10 = 0
      · have h10 : n < 10 := (Nat.div_eq_zero_iff (by omega)).mp hdiv
        rw [toDigitsCore_succ, if_pos hdiv, msdigits, if_pos h10,
          Nat.mod_eq_of_lt h10]
        rfl
      · have h10 : ¬ n < 10 := fun hlt => hdiv (Nat.div_eq_of_lt hlt)
        rw [toDigitsCore_succ, if_neg hdiv]
        have hbound : n / 10 < 10 ^ (f + 1) := by
          rw [Nat.div_lt_iff_lt_mul (by omega)]
          have hpow : (10:Nat) ^ (f + 1 + 1) = 10 ^ (f + 1) * 10 := by ring
          rw [← hpow]
          exact hn
        rw [ih (n / 10) (Nat.digitChar (n % 10) :: acc) hbound]
        have hms : msdigits n = msdigits (n / 10) ++ [Nat.digitChar (n % 10)] := by
          rw [msdigits, if_neg h10]
        rw [hms, List.append_assoc]
        rfl

/-- `Nat.repr` writes exactly the most-significant-first decimal
digits. -/
theorem repr_eq_msdigits (n : Nat) :
    Nat.repr n = (msdigits n).asString := by
  have hfuel : n < 10 ^ (n + 1) := by
    calc n < 10 ^ n := Nat.lt_pow_self (by norm_num) n
    _ ≤ 10 ^ (n + 1) := Nat.pow_le_pow_right (by norm_num) (Nat.le_succ n)
  rw [Nat.repr, Nat.toDigits, toDigitsCore_eq_msdigits n n [] hfuel,
    List.append_nil]

/-- `Nat.repr` is injective. -/
theorem natRepr_injective (n m : Nat) (h : Nat.repr n = Nat.repr m) :
    n = m := by
  rw [repr_eq_msdigits, repr_eq_msdigits] at h
  apply msdigits_injective
  have := congrArg String.data h
  simpa [List.asString] using this

/-- C6 counterexample: two distinct sub-response messages — gpt4's
reactions to two different parent messages, whose reaction timers fire
in the same millisecond (`Date.now() = 5000`) — carry the same id
`sub-gpt4-5000`: ids assigned by the orchestrator's
`${kind}-${model}-${Date.now()}` scheme are not unique within a
session. -/
theorem c6_counterexample :
    generateSubResponse gpt4Fx parentFx 0 5000 ≠
      generateSubResponse gpt4Fx parent2Fx 0 5000 ∧
    (generateSubResponse gpt4Fx parentFx 0 5000).id =
      (generateSubResponse gpt4Fx parent2Fx 0 5000).id := by
  constructor
  · decide
  · rfl

/-- C6 (amended): the session layer's counter-based `generateMessageId`
does assign unique ids — the id string determines the counter value —
but the orchestrator's timestamp-based ids are a function of the message
kind, the author and the millisecond only: two sub-responses by the same
model stamped in the same millisecond share an id regardless of their
parents and content picks, so global session-wide uniqueness fails. -/
theorem c6_id_uniqueness_scoped :
    (∀ a b : Nat, (generateMessageId a).1 = (generateMessageId b).1 → a = b) ∧
    (∀ (model : AIPersonality) (p1 p2 : ThreadedMessage)
      (pick1 pick2 now : Nat),
      (generateSubResponse model p1 pick1 now).id =
        (generateSubResponse model p2 pick2 now).id) := by
  constructor
  · intro a b h
    simp only [generateMessageId] at h
    have hdata := congrArg String.data h
    simp only [String.data_append] at hdata
    have htl := List.append_cancel_left hdata
    have hrepr : Nat.repr (a + 1) = Nat.repr (b + 1) := by
      apply String.ext
      exact htl
    have := natRepr_injective (a + 1) (b + 1) hrepr
    omega
  · intro model p1 p2 pick1 pick2 now
    rfl

/-- C6 witness: the counter digit-string injectivity at a concrete
input. -/
theorem c6_id_uniqueness_scoped_witness :
    (generateMessageId 41).1 = (generateMessageId 41).1 ∧ (41 : Nat) = 41 :=
  ⟨rfl, c6_id_uniqueness_scoped.1 41 41 rfl⟩

end GroupChat
